import Mathlib

/-!
Verification of the inventory-update reconciliation engine.

This file gives a shallow embedding of the core logic of the repository:
the Conway catalog index builder and mutation client (`holded_api.py`),
the reconciliation scenarios (`inventory_updater.py`,
`RobustInventoryUpdater`), the new-product consolidator
(`new_products_processor.py`) and the feed validation step
(`file_processor.py`), together with theorems about the specified
properties.

Python dictionaries are embedded as association lists `List (String × β)`
(insertion order preserved, unique keys as a hypothesis where needed);
optional / possibly-missing dictionary entries are embedded as `Option`;
the HTTP layer is abstracted as a response oracle so that the set of
issued mutation calls can be stated and proved about.
-/

/-- Python `dict` lookup on an association list: first binding wins
(bindings have unique keys when built by `dictInsert`). -/
def lookupSku {β : Type} (s : String) : List (String × β) → Option β
  | [] => none
  | e :: rest => if e.1 = s then some e.2 else lookupSku s rest

/-- Python `d[k] = v`: replace the binding in place if the key exists,
otherwise append. -/
def dictInsert {β : Type} (k : String) (v : β) : List (String × β) → List (String × β)
  | [] => [(k, v)]
  | e :: rest => if e.1 = k then (k, v) :: rest else e :: dictInsert k v rest

/-- First `some` of two options (Python `variant.get(f, product.get(f))`
probing, with an absent key and an explicit `None` identified). -/
def optOrElse {α : Type} (a b : Option α) : Option α :=
  match a with
  | some x => some x
  | none => b

/-- Outcome of one HTTP request made through the `requests` session:
either a status code or a raised transport exception. -/
inductive ApiResult : Type
  | status (code : Nat)
  | netError
  deriving DecidableEq, Repr, BEq

/-- One stock-mutation PUT submitted to `/products/{productId}/stock`:
payload `{"stock": {warehouse: {innerKey: delta}}}` (`holded_api.py`,
`update_product_stock`).  `innerKey` is the variant id when a variant is
updated, else the product id. -/
structure StockCall : Type where
  productId : String
  innerKey : String
  delta : Int
  deriving DecidableEq, Repr

/-- `HoldedAPI.update_product_stock`: computes
`stock_difference = new_stock - current_stock`; a zero difference returns
`True` with no HTTP call; otherwise the delta is submitted and success is
a 200/201/204 status.  Any exception yields `False`.  The returned list
records the mutation calls issued. -/
def updateProductStock (resp : StockCall → ApiResult) (productId : String)
    (newStock currentStock : Int) (variantId : Option String) : Bool × List StockCall :=
  let diff := newStock - currentStock
  if diff = 0 then (true, [])
  else
    let call : StockCall := ⟨productId, variantId.getD productId, diff⟩
    match resp call with
    | ApiResult.status c => (c == 200 || c == 201 || c == 204, [call])
    | ApiResult.netError => (false, [call])

/-- `HoldedAPI.delete_product_with_variants`: DELETE the product; success
is a 200/204 status, every other status (404 included) and every
exception reports failure. -/
def deleteProductWithVariants (resp : String → ApiResult) (productId : String) : Bool :=
  match resp productId with
  | ApiResult.status c => c == 200 || c == 204
  | ApiResult.netError => false

/-- Raw variant object as returned by the catalog service, restricted to
the fields the code probes: SKU candidate fields, id and stock fields. -/
structure RawVariant : Type where
  sku : Option String
  code : Option String
  reference : Option String
  item_code : Option String
  ref : Option String
  id : Option String
  stock : Option Int
  quantity : Option Int
  inventory : Option Int
  units : Option Int
  deriving DecidableEq, Repr

/-- Raw main-product object as returned by the catalog service,
restricted to the fields the code probes. -/
structure RawProduct : Type where
  sku : Option String
  code : Option String
  reference : Option String
  item_code : Option String
  product_code : Option String
  ref : Option String
  id : Option String
  name : Option String
  stock : Option Int
  quantity : Option Int
  inventory : Option Int
  units : Option Int
  variants : List RawVariant
  deriving DecidableEq, Repr

/-- Stock-bearing fields of `_variant_data` probed by
`_get_current_stock`. -/
structure VariantStockData : Type where
  stock : Option Int
  quantity : Option Int
  inventory : Option Int
  units : Option Int
  deriving DecidableEq, Repr

/-- One entry of the Conway variant-SKU index built by
`get_conway_variant_skus`: the merged `{**product, ...}` dictionary,
restricted to the fields the updater reads. -/
structure CatalogRecord : Type where
  name : Option String
  isVariant : Bool
  variantData : Option VariantStockData
  stock : Option Int
  quantity : Option Int
  inventory : Option Int
  units : Option Int
  mainProductId : Option String
  variantId : Option String
  deriving DecidableEq, Repr

/-- Whitespace test for Python `str.strip`. -/
def isPySpace (c : Char) : Bool :=
  c = ' ' || c = '\t' || c = '\n' || c = '\r'

/-- Python `str.strip()`, modelled on the character list (so concrete
instances evaluate in the kernel). -/
def pyStrip (s : String) : String :=
  String.mk (((s.data.dropWhile isPySpace).reverse.dropWhile isPySpace).reverse)

/-- Python `str.lower()`, modelled on the character list. -/
def pyLower (s : String) : String :=
  String.mk (s.data.map Char.toLower)

/-- The `for sku_field in [...]` probing loop: first field that is
present and truthy (non-empty) wins. -/
def firstTruthy : List (Option String) → Option String
  | [] => none
  | none :: rest => firstTruthy rest
  | some s :: rest => if s = "" then firstTruthy rest else some s

/-- SKU resolution for one variant (`get_conway_variant_skus`): probe
`sku`, `code`, `reference`, `item_code`, `ref`; strip the winner; keep it
only if non-empty after stripping. -/
def resolveVariantSku (v : RawVariant) : Option String :=
  match firstTruthy [v.sku, v.code, v.reference, v.item_code, v.ref] with
  | none => none
  | some s => if pyStrip s = "" then none else some (pyStrip s)

/-- The merged record stored for a variant SKU: `{**product}` overridden
with variant stock, tagged `_is_variant: True` with parent and variant
ids. -/
def mkCatalogRecord (p : RawProduct) (v : RawVariant) : CatalogRecord :=
  { name := p.name
    isVariant := true
    variantData := some ⟨v.stock, v.quantity, v.inventory, v.units⟩
    stock := optOrElse v.stock p.stock
    quantity := p.quantity
    inventory := p.inventory
    units := p.units
    mainProductId := p.id
    variantId := v.id }

/-- Insert one variant of one product into the index, if its SKU
resolves. -/
def insertVariant (p : RawProduct) (acc : List (String × CatalogRecord)) (v : RawVariant) :
    List (String × CatalogRecord) :=
  match resolveVariantSku v with
  | none => acc
  | some sku => dictInsert sku (mkCatalogRecord p v) acc

/-- `HoldedAPI.get_conway_variant_skus`: walk every product's variant
list and index each resolvable variant SKU; main-product SKUs are read
(logged) but never inserted. -/
def getConwayVariantSkus (products : List RawProduct) : List (String × CatalogRecord) :=
  products.foldl (fun acc p => p.variants.foldl (insertVariant p) acc) []

/-- `HoldedAPI.get_all_variants_by_product_name`: all index entries whose
(stripped, lowercased) name equals the searched name. -/
def getAllVariantsByProductName (skus : List (String × CatalogRecord)) (productName : String) :
    List (String × CatalogRecord) :=
  skus.filter (fun e => pyLower (pyStrip (e.2.name.getD "")) == pyLower (pyStrip productName))

/-- One normalized feed record as produced by `FileProcessor`
(`_extract_product_data`): `sku` always present, the other fields present
only when their column resolved and parsed. -/
structure FeedRecord : Type where
  sku : String
  stock : Option Int
  price : Option Rat
  isOffer : Option Bool
  name : Option String
  size : Option String
  color : Option String
  ws : Option String
  deriving DecidableEq, Repr

/-- The `new_product_info` dictionary built for a feed SKU absent from
the catalog index (`_apply_filtering_scenarios`, scenario 3). -/
structure NewProductInfo : Type where
  sku : String
  stock : Int
  price : Option Rat
  name : String
  isOffer : Bool
  size : String
  color : String
  ws : String
  deriving DecidableEq, Repr

/-- Scenario 3's construction of `new_product_info` from the feed
record: `'N/A'` stands in for a falsy SKU, missing stock becomes 0,
missing strings become `''`. -/
def mkNewProductInfo (sku : String) (fp : FeedRecord) : NewProductInfo :=
  { sku := if sku = "" then "N/A" else sku
    stock := fp.stock.getD 0
    price := fp.price
    name := fp.name.getD ""
    isOffer := fp.isOffer.getD false
    size := fp.size.getD ""
    color := fp.color.getD ""
    ws := fp.ws.getD "" }

/-- `_get_current_stock`'s probing of the stock fields in priority order
`stock`, `quantity`, `inventory`, `units`. -/
def probeStockFields (stock quantity inventory units : Option Int) : Option Int :=
  match stock with
  | some s => some s
  | none =>
    match quantity with
    | some q => some q
    | none =>
      match inventory with
      | some i => some i
      | none => units

/-- `RobustInventoryUpdater._get_current_stock`: for a variant probe
`_variant_data` first, then fall back to the merged product-level
fields; `none` when no stock field is found. -/
def getCurrentStock (r : CatalogRecord) : Option Int :=
  let fromVariant : Option Int :=
    if r.isVariant then
      match r.variantData with
      | some vd => probeStockFields vd.stock vd.quantity vd.inventory vd.units
      | none => none
    else none
  match fromVariant with
  | some s => some s
  | none => probeStockFields r.stock r.quantity r.inventory r.units

/-- `RobustInventoryUpdater._update_product_stock`: refuse (failure, no
call) any record not marked as a variant or missing/falsy parent or
variant id; otherwise delegate to the API client. -/
def updateProductStockGuarded (resp : StockCall → ApiResult) (r : CatalogRecord)
    (newStock currentStock : Int) : Bool × List StockCall :=
  if !r.isVariant then (false, [])
  else
    match r.mainProductId, r.variantId with
    | some m, some v =>
      if m = "" || v = "" then (false, [])
      else updateProductStock resp m newStock currentStock (some v)
    | some _, none => (false, [])
    | none, _ => (false, [])

/-- One reset or update tracked for the email notification
(`reset_info` / `update_info` dictionaries, restricted to the stock
fields). -/
structure StockChangeInfo : Type where
  sku : String
  oldStock : Int
  newStock : Int
  deriving DecidableEq, Repr

/-- Accumulated state of `_apply_filtering_scenarios`: the
`scenario_results` counters and error list, the instance-level
`stock_resets` / `stock_updates` tracking lists, the issued mutation
calls, and (ghost, mirroring the branch entries that the code logs) the
SKUs classified by each scenario. -/
structure ScenarioAcc : Type where
  stockUpdates : Nat
  stockResets : Nat
  skippedNotInHolded : Nat
  newProductsForCreation : List NewProductInfo
  errors : List String
  resetInfos : List StockChangeInfo
  updateInfos : List StockChangeInfo
  resetCls : List String
  updateCls : List String
  newCls : List String
  calls : List StockCall
  deriving DecidableEq, Repr

/-- The empty accumulator at the start of `_apply_filtering_scenarios`. -/
def emptyScenarioAcc : ScenarioAcc :=
  ⟨0, 0, 0, [], [], [], [], [], [], [], []⟩

/-- Scenario 1 body for one catalog SKU absent from the feed: skip when
no current stock is found; when current stock is positive attempt a
mutation to 0, counting success or recording a failure message. -/
def scenario1Body (resp : StockCall → ApiResult) (acc : ScenarioAcc)
    (sku : String) (rec : CatalogRecord) : ScenarioAcc :=
  match getCurrentStock rec with
  | none => acc
  | some currentStock =>
    if 0 < currentStock then
      let r := updateProductStockGuarded resp rec 0 currentStock
      let acc' := { acc with calls := acc.calls ++ r.2 }
      if r.1 then
        { acc' with stockResets := acc'.stockResets + 1,
                    resetInfos := acc'.resetInfos ++ [⟨sku, currentStock, 0⟩] }
      else
        { acc' with errors := acc'.errors ++ ["Failed to reset stock for SKU: " ++ sku] }
    else acc

/-- Scenario 1 (`for sku, holded_product in conway_skus.items(): if sku
not in file_skus: ...`). -/
def scenario1Step (resp : StockCall → ApiResult) (fileSkus : List (String × FeedRecord))
    (acc : ScenarioAcc) (e : String × CatalogRecord) : ScenarioAcc :=
  if (lookupSku e.1 fileSkus).isSome then acc
  else scenario1Body resp { acc with resetCls := acc.resetCls ++ [e.1] } e.1 e.2

/-- Scenario 2 body for one feed SKU found in the catalog index: target
stock is `int(file_product.get('stock', 0))`; when it differs from the
current stock attempt the mutation, counting success or recording a
failure message. -/
def scenario2Body (resp : StockCall → ApiResult) (acc : ScenarioAcc)
    (sku : String) (fp : FeedRecord) (rec : CatalogRecord) : ScenarioAcc :=
  let newStock : Int := fp.stock.getD 0
  match getCurrentStock rec with
  | none => acc
  | some currentStock =>
    if currentStock ≠ newStock then
      let r := updateProductStockGuarded resp rec newStock currentStock
      let acc' := { acc with calls := acc.calls ++ r.2 }
      if r.1 then
        { acc' with stockUpdates := acc'.stockUpdates + 1,
                    updateInfos := acc'.updateInfos ++ [⟨sku, currentStock, newStock⟩] }
      else
        { acc' with errors := acc'.errors ++ ["Failed to update stock for SKU: " ++ sku] }
    else acc

/-- Scenario 2 (`for sku, file_product in file_skus.items(): if sku in
conway_skus: ...`). -/
def scenario2Step (resp : StockCall → ApiResult) (conwaySkus : List (String × CatalogRecord))
    (acc : ScenarioAcc) (e : String × FeedRecord) : ScenarioAcc :=
  match lookupSku e.1 conwaySkus with
  | none => acc
  | some rec => scenario2Body resp { acc with updateCls := acc.updateCls ++ [e.1] } e.1 e.2 rec

/-- Scenario 3 (`for sku, file_product in file_skus.items(): if sku not
in conway_skus: ...`): count the skip and track the new-product
candidate. -/
def scenario3Step (conwaySkus : List (String × CatalogRecord))
    (acc : ScenarioAcc) (e : String × FeedRecord) : ScenarioAcc :=
  if (lookupSku e.1 conwaySkus).isSome then acc
  else
    { acc with newCls := acc.newCls ++ [e.1],
               skippedNotInHolded := acc.skippedNotInHolded + 1,
               newProductsForCreation := acc.newProductsForCreation ++ [mkNewProductInfo e.1 e.2] }

/-- `RobustInventoryUpdater._apply_filtering_scenarios`: the three
scenario loops run in order over the catalog index and the feed
dictionary against a response oracle for the catalog service. -/
def applyFilteringScenarios (resp : StockCall → ApiResult)
    (conwaySkus : List (String × CatalogRecord))
    (fileSkus : List (String × FeedRecord)) : ScenarioAcc :=
  let a1 := conwaySkus.foldl (scenario1Step resp fileSkus) emptyScenarioAcc
  let a2 := fileSkus.foldl (scenario2Step resp conwaySkus) a1
  fileSkus.foldl (scenario3Step conwaySkus) a2

/-- One entry of the consolidated variant list built by
`_consolidate_variants_with_existing` (the fields relevant here; the
remaining dictionary entries are reporting payload).  `fromHolded` is the
`_from_holded` flag distinguishing converted existing variants from new
candidates. -/
structure ConsEntry : Type where
  sku : String
  stock : Int
  name : String
  fromHolded : Bool
  deriving DecidableEq, Repr

/-- A new-variant candidate handed to the consolidator (the
`new_product_info` dictionaries flagged `is_new_variant`); the `name` key
is always present on them. -/
structure NewVariantCand : Type where
  sku : String
  stock : Int
  name : String
  deriving DecidableEq, Repr

/-- A candidate passed through unchanged. -/
def toNewEntry (nv : NewVariantCand) : ConsEntry :=
  ⟨nv.sku, nv.stock, nv.name, false⟩

/-- An existing catalog variant converted to the synthetic
"already-present" record (`existing_as_new_format`). -/
def toExistingEntry (productName : String) (e : String × CatalogRecord) : ConsEntry :=
  ⟨e.1, e.2.stock.getD 0, productName, true⟩

/-- Mutable state threaded through `_consolidate_variants_with_existing`:
the accumulated consolidated list, the scheduled deletions
(`products_for_deletion`, reduced to the parent product ids) and the
`processed_products` name set. -/
structure ConsState : Type where
  consolidated : List ConsEntry
  deletions : List String
  processed : List String
  deriving DecidableEq, Repr

/-- One iteration of the `for new_variant in new_variants` loop of
`_consolidate_variants_with_existing`.  A name already processed just
appends the variant again; a first occurrence fetches the existing
variants by name, schedules the parent (if its id is truthy) for
deletion, converts the existing variants, and then appends every new
candidate sharing the name. -/
def consolidateStep (skus : List (String × CatalogRecord)) (allNew : List NewVariantCand)
    (st : ConsState) (nv : NewVariantCand) : ConsState :=
  let productName := nv.name
  if productName ∈ st.processed then
    { st with consolidated := st.consolidated ++ [toNewEntry nv] }
  else
    let existing := getAllVariantsByProductName skus productName
    let st1 :=
      if existing.isEmpty then st
      else
        let st0 :=
          match existing.head?.map (fun e => e.2.mainProductId) with
          | some (some m) =>
            if m = "" then st else { st with deletions := st.deletions ++ [m] }
          | _ => st
        { st0 with consolidated := st0.consolidated ++ existing.map (toExistingEntry productName) }
    let productNew := allNew.filter (fun v => v.name == productName)
    { st1 with consolidated := st1.consolidated ++ productNew.map toNewEntry,
               processed := st1.processed ++ [productName] }

/-- `NewProductsProcessor._consolidate_variants_with_existing` against a
snapshot of the catalog index (each name search in the source re-reads
the same Conway index). -/
def consolidateVariantsWithExisting (skus : List (String × CatalogRecord))
    (newVariants : List NewVariantCand) : ConsState :=
  newVariants.foldl (consolidateStep skus newVariants) ⟨[], [], []⟩

/-- One scheduled deletion (`products_for_deletion` entry). -/
structure DeletionItem : Type where
  productId : String
  productName : String
  variantsCount : Nat
  deriving DecidableEq, Repr

/-- One entry of `deletion_details`. -/
structure DeletionDetail : Type where
  productId : String
  productName : String
  variantsCount : Nat
  ok : Bool
  deriving DecidableEq, Repr

/-- Result of `execute_automatic_product_deletions`. -/
structure DeletionResults : Type where
  totalScheduled : Nat
  successful : Nat
  failed : Nat
  details : List DeletionDetail
  errors : List String
  deriving DecidableEq, Repr

/-- One iteration of the deletion loop: success or failure is recorded
for this product and the loop continues either way. -/
def deletionStep (resp : String → ApiResult) (dr : DeletionResults) (item : DeletionItem) :
    DeletionResults :=
  if deleteProductWithVariants resp item.productId then
    { dr with successful := dr.successful + 1,
              details := dr.details ++ [⟨item.productId, item.productName, item.variantsCount, true⟩] }
  else
    { dr with failed := dr.failed + 1,
              errors := dr.errors ++
                ["Failed to delete " ++ item.productName ++ " (" ++ item.productId ++ ")"],
              details := dr.details ++ [⟨item.productId, item.productName, item.variantsCount, false⟩] }

/-- `NewProductsProcessor.execute_automatic_product_deletions`. -/
def executeAutomaticProductDeletions (resp : String → ApiResult)
    (items : List DeletionItem) : DeletionResults :=
  items.foldl (deletionStep resp) ⟨items.length, 0, 0, [], []⟩

/-- `FileProcessor._extract_product_data`'s final keep condition (line
`if 'price' in product or 'stock' in product or 'name' in product`): a
row with a resolvable SKU survives extraction iff it carries a price, a
stock or a name. -/
def extractKeeps (p : FeedRecord) : Bool :=
  p.price.isSome || p.stock.isSome || p.name.isSome

/-- The price check of `validate_products`: an invalid (negative) price
is deleted from the record. -/
def validatePrice (p : FeedRecord) : FeedRecord :=
  match p.price with
  | some pr => if pr < 0 then { p with price := none } else p
  | none => p

/-- The stock check of `validate_products`: an invalid (negative) stock
is deleted from the record. -/
def validateStock (p : FeedRecord) : FeedRecord :=
  match p.stock with
  | some st => if st < 0 then { p with stock := none } else p
  | none => p

/-- `FileProcessor.validate_products` on one record: drop a falsy SKU;
delete a negative price and a negative stock; keep the record only if a
price or a stock remains. -/
def validateOne (p : FeedRecord) : Option FeedRecord :=
  if p.sku = "" then none
  else
    let p2 := validateStock (validatePrice p)
    if p2.price.isSome || p2.stock.isSome then some p2 else none

/-- `FileProcessor.validate_products`: the per-record validation over the
extracted list; `process_inventory_file` returns exactly this list. -/
def validateProducts (ps : List FeedRecord) : List FeedRecord :=
  ps.filterMap validateOne

/-- The calls `update_product_stock` issues, as a pure function of its
arguments (the response oracle only decides success, never whether or
what is submitted). -/
def stockCalls (productId : String) (newStock currentStock : Int) (variantId : Option String) :
    List StockCall :=
  if newStock - currentStock = 0 then []
  else [⟨productId, variantId.getD productId, newStock - currentStock⟩]

/-- The calls `_update_product_stock` issues, as a pure function. -/
def guardedCalls (r : CatalogRecord) (newStock currentStock : Int) : List StockCall :=
  if !r.isVariant then []
  else
    match r.mainProductId, r.variantId with
    | some m, some v =>
      if m = "" || v = "" then [] else stockCalls m newStock currentStock (some v)
    | some _, none => []
    | none, _ => []

/-- The calls the Reset scenario issues for one catalog entry. -/
def callsForReset (fileSkus : List (String × FeedRecord)) (e : String × CatalogRecord) :
    List StockCall :=
  if (lookupSku e.1 fileSkus).isSome then []
  else
    match getCurrentStock e.2 with
    | none => []
    | some cur => if 0 < cur then guardedCalls e.2 0 cur else []

/-- The calls the Update scenario issues for one feed entry. -/
def callsForUpdate (conwaySkus : List (String × CatalogRecord)) (e : String × FeedRecord) :
    List StockCall :=
  match lookupSku e.1 conwaySkus with
  | none => []
  | some rec =>
    match getCurrentStock rec with
    | none => []
    | some cur =>
      if cur ≠ e.2.stock.getD 0 then guardedCalls rec (e.2.stock.getD 0) cur else []


/-! ### Concrete inputs used by witnesses and counterexamples -/

/-- Oracle: every request answers 200. -/
def respOk : StockCall → ApiResult := fun _ => ApiResult.status 200

/-- Oracle: every request answers 500. -/
def respFail : StockCall → ApiResult := fun _ => ApiResult.status 500

/-- Deletion oracle: every request answers 404 (product absent). -/
def respDel404 : String → ApiResult := fun _ => ApiResult.status 404

/-- Deletion oracle: every request answers 200. -/
def respDelOk : String → ApiResult := fun _ => ApiResult.status 200

/-- A well-formed variant index record with stock 5. -/
def recA : CatalogRecord :=
  { name := some "Bike X", isVariant := true,
    variantData := some ⟨some 5, none, none, none⟩,
    stock := some 5, quantity := none, inventory := none, units := none,
    mainProductId := some "P1", variantId := some "V1" }

/-- A main-product (non-variant) record, as the defensive check guards
against. -/
def recMain : CatalogRecord :=
  { name := some "Bike main", isVariant := false, variantData := none,
    stock := some 3, quantity := none, inventory := none, units := none,
    mainProductId := some "P1", variantId := none }

/-- A feed record carrying a price and a name but no stock field. -/
def fpNoStock : FeedRecord :=
  ⟨"A", none, some 10, some false, some "Bike X", none, none, none⟩

/-- A feed record for a SKU absent from the catalog. -/
def fpNewC : FeedRecord :=
  ⟨"C", some 3, none, none, some "New bike", none, none, none⟩

/-- A feed record carrying only a name besides its SKU. -/
def fpNameOnly : FeedRecord :=
  ⟨"S1", none, none, none, some "OnlyName", none, none, none⟩

/-- A raw catalog variant with a resolvable SKU. -/
def rawV1 : RawVariant :=
  ⟨some "V1", none, none, none, none, some "VID1", some 5, none, none, none⟩

/-- A raw catalog product holding `rawV1` and a main-product SKU of its
own. -/
def rawP1 : RawProduct :=
  ⟨some "MAIN1", none, none, none, none, none, some "P1", some "Bike X",
   some 2, none, none, none, [rawV1]⟩

/-- An existing catalog variant named `X` under parent `P1`. -/
def recE : CatalogRecord :=
  { name := some "X", isVariant := true,
    variantData := some ⟨some 7, none, none, none⟩,
    stock := some 7, quantity := none, inventory := none, units := none,
    mainProductId := some "P1", variantId := some "VE" }

/-- Index holding the single variant `E1` of the product named `X`. -/
def consIdx : List (String × CatalogRecord) := [("E1", recE)]

/-- Two new-variant candidates that both carry the name `X`. -/
def consNew : List NewVariantCand := [⟨"V1", 1, "X"⟩, ⟨"V2", 2, "X"⟩]

/-! ### Dictionary lemmas -/

theorem lookupSku_isSome_iff {β : Type} (s : String) (l : List (String × β)) :
    (lookupSku s l).isSome = true ↔ s ∈ l.map Prod.fst := by
  induction l with
  | nil => simp [lookupSku]
  | cons e t ih =>
    by_cases h : e.1 = s
    · simp [lookupSku, h]
    · simp [lookupSku, h, ih, Ne.symm h]

theorem lookupSku_eq_none_iff {β : Type} (s : String) (l : List (String × β)) :
    lookupSku s l = none ↔ s ∉ l.map Prod.fst := by
  rw [← lookupSku_isSome_iff s l]
  cases lookupSku s l <;> simp

theorem mem_dictInsert {β : Type} (k : String) (v : β) (l : List (String × β)) :
    ∀ e ∈ dictInsert k v l, e = (k, v) ∨ e ∈ l := by
  induction l with
  | nil => simp [dictInsert]
  | cons f t ih =>
    intro e he
    by_cases h : f.1 = k
    · simp [dictInsert, h] at he
      rcases he with he | he
      · exact Or.inl (by simp [he])
      · exact Or.inr (by simp [he])
    · simp [dictInsert, h] at he
      rcases he with he | he
      · exact Or.inr (by simp [he])
      · rcases ih e he with h' | h'
        · exact Or.inl h'
        · exact Or.inr (by simp [h'])

theorem lookupSku_mem {β : Type} (s : String) (l : List (String × β)) (r : β) :
    lookupSku s l = some r → (s, r) ∈ l := by
  induction l with
  | nil => simp [lookupSku]
  | cons e t ih =>
    intro h
    by_cases he : e.1 = s
    · simp [lookupSku, he] at h
      have hept : e = (s, r) := by cases e; simp_all
      rw [hept]
      exact List.mem_cons_self _ _
    · simp [lookupSku, he] at h
      exact List.mem_cons_of_mem _ (ih h)

/-! ### Generic fold-projection lemmas -/

theorem foldl_proj {σ α γ : Type} (f : σ → α → σ) (g : σ → List γ) (d : α → List γ)
    (h : ∀ acc e, g (f acc e) = g acc ++ d e) :
    ∀ (l : List α) (acc : σ), g (List.foldl f acc l) = g acc ++ (l.map d).flatten := by
  intro l
  induction l with
  | nil => intro acc; simp
  | cons e t ih =>
    intro acc
    rw [List.foldl_cons, ih, h, List.map_cons, List.flatten_cons, List.append_assoc]

theorem foldl_proj_const {σ α γ : Type} (f : σ → α → σ) (g : σ → List γ)
    (h : ∀ acc e, g (f acc e) = g acc) :
    ∀ (l : List α) (acc : σ), g (List.foldl f acc l) = g acc := by
  intro l
  induction l with
  | nil => intro acc; rfl
  | cons e t ih => intro acc; rw [List.foldl_cons, ih, h]

theorem join_map_guard {α γ : Type} (q : α → Bool) (key : α → γ) (l : List α) :
    (l.map (fun e => if q e then [key e] else [])).flatten = (l.filter q).map key := by
  induction l with
  | nil => rfl
  | cons e t ih => by_cases h : q e <;> simp [h, ih]

theorem filter_fst_comm {β : Type} (q : String → Bool) (l : List (String × β)) :
    (l.filter (fun e => q e.1)).map Prod.fst = (l.map Prod.fst).filter q := by
  induction l with
  | nil => rfl
  | cons e t ih => by_cases h : q e.1 <;> simp [h, ih]

/-! ### Characterizing the mutation calls issued by the engine -/

theorem updateProductStock_calls (resp : StockCall → ApiResult) (pid : String)
    (n c : Int) (vid : Option String) :
    (updateProductStock resp pid n c vid).2 = stockCalls pid n c vid := by
  unfold updateProductStock stockCalls
  by_cases h : n - c = 0
  · simp [h]
  · simp only [h, if_neg, if_false]
    cases resp ⟨pid, vid.getD pid, n - c⟩ <;> simp

theorem updateProductStockGuarded_calls (resp : StockCall → ApiResult) (r : CatalogRecord)
    (n c : Int) :
    (updateProductStockGuarded resp r n c).2 = guardedCalls r n c := by
  unfold updateProductStockGuarded guardedCalls
  by_cases hv : r.isVariant <;> simp only [hv]
  · cases hm : r.mainProductId with
    | none => simp
    | some m =>
      cases hvi : r.variantId with
      | none => simp
      | some v =>
        by_cases he : m = "" || v = ""
        · simp [he]
        · simp [he, updateProductStock_calls]
  · simp

theorem scenario1Body_calls (resp : StockCall → ApiResult) (acc : ScenarioAcc)
    (sku : String) (rec : CatalogRecord) :
    (scenario1Body resp acc sku rec).calls =
      acc.calls ++ (match getCurrentStock rec with
        | none => []
        | some cur => if 0 < cur then guardedCalls rec 0 cur else []) := by
  unfold scenario1Body
  cases getCurrentStock rec with
  | none => simp
  | some cur =>
    by_cases hc : 0 < cur
    · simp only [hc, if_true]
      rw [← updateProductStockGuarded_calls resp rec 0 cur]
      split <;> simp
    · simp [hc]

theorem scenario1Body_resetCls (resp : StockCall → ApiResult) (acc : ScenarioAcc)
    (sku : String) (rec : CatalogRecord) :
    (scenario1Body resp acc sku rec).resetCls = acc.resetCls := by
  unfold scenario1Body
  cases getCurrentStock rec with
  | none => rfl
  | some cur =>
    by_cases hc : 0 < cur
    · simp only [hc, if_true]
      split <;> rfl
    · simp [hc]

theorem scenario1Body_updateCls (resp : StockCall → ApiResult) (acc : ScenarioAcc)
    (sku : String) (rec : CatalogRecord) :
    (scenario1Body resp acc sku rec).updateCls = acc.updateCls := by
  unfold scenario1Body
  cases getCurrentStock rec with
  | none => rfl
  | some cur =>
    by_cases hc : 0 < cur
    · simp only [hc, if_true]
      split <;> rfl
    · simp [hc]

theorem scenario1Body_newCls (resp : StockCall → ApiResult) (acc : ScenarioAcc)
    (sku : String) (rec : CatalogRecord) :
    (scenario1Body resp acc sku rec).newCls = acc.newCls := by
  unfold scenario1Body
  cases getCurrentStock rec with
  | none => rfl
  | some cur =>
    by_cases hc : 0 < cur
    · simp only [hc, if_true]
      split <;> rfl
    · simp [hc]

theorem scenario1Body_newProducts (resp : StockCall → ApiResult) (acc : ScenarioAcc)
    (sku : String) (rec : CatalogRecord) :
    (scenario1Body resp acc sku rec).newProductsForCreation = acc.newProductsForCreation := by
  unfold scenario1Body
  cases getCurrentStock rec with
  | none => rfl
  | some cur =>
    by_cases hc : 0 < cur
    · simp only [hc, if_true]
      split <;> rfl
    · simp [hc]

theorem scenario2Body_calls (resp : StockCall → ApiResult) (acc : ScenarioAcc)
    (sku : String) (fp : FeedRecord) (rec : CatalogRecord) :
    (scenario2Body resp acc sku fp rec).calls =
      acc.calls ++ (match getCurrentStock rec with
        | none => []
        | some cur =>
          if cur ≠ fp.stock.getD 0 then guardedCalls rec (fp.stock.getD 0) cur else []) := by
  unfold scenario2Body
  cases getCurrentStock rec with
  | none => simp
  | some cur =>
    dsimp only
    by_cases hc : cur ≠ fp.stock.getD 0
    · rw [if_pos hc]
      rw [← updateProductStockGuarded_calls resp rec (fp.stock.getD 0) cur]
      split <;> simp
    · rw [if_neg hc]
      simp only [ne_eq, not_not] at hc
      simp [hc]

theorem scenario2Body_resetCls (resp : StockCall → ApiResult) (acc : ScenarioAcc)
    (sku : String) (fp : FeedRecord) (rec : CatalogRecord) :
    (scenario2Body resp acc sku fp rec).resetCls = acc.resetCls := by
  unfold scenario2Body
  cases getCurrentStock rec with
  | none => rfl
  | some cur =>
    dsimp only
    by_cases hc : cur ≠ fp.stock.getD 0
    · rw [if_pos hc]
      split <;> rfl
    · rw [if_neg hc]

theorem scenario2Body_updateCls (resp : StockCall → ApiResult) (acc : ScenarioAcc)
    (sku : String) (fp : FeedRecord) (rec : CatalogRecord) :
    (scenario2Body resp acc sku fp rec).updateCls = acc.updateCls := by
  unfold scenario2Body
  cases getCurrentStock rec with
  | none => rfl
  | some cur =>
    dsimp only
    by_cases hc : cur ≠ fp.stock.getD 0
    · rw [if_pos hc]
      split <;> rfl
    · rw [if_neg hc]

theorem scenario2Body_newCls (resp : StockCall → ApiResult) (acc : ScenarioAcc)
    (sku : String) (fp : FeedRecord) (rec : CatalogRecord) :
    (scenario2Body resp acc sku fp rec).newCls = acc.newCls := by
  unfold scenario2Body
  cases getCurrentStock rec with
  | none => rfl
  | some cur =>
    dsimp only
    by_cases hc : cur ≠ fp.stock.getD 0
    · rw [if_pos hc]
      split <;> rfl
    · rw [if_neg hc]

theorem scenario2Body_newProducts (resp : StockCall → ApiResult) (acc : ScenarioAcc)
    (sku : String) (fp : FeedRecord) (rec : CatalogRecord) :
    (scenario2Body resp acc sku fp rec).newProductsForCreation = acc.newProductsForCreation := by
  unfold scenario2Body
  cases getCurrentStock rec with
  | none => rfl
  | some cur =>
    dsimp only
    by_cases hc : cur ≠ fp.stock.getD 0
    · rw [if_pos hc]
      split <;> rfl
    · rw [if_neg hc]

/-! ### Step-level projection lemmas -/

theorem scenario1Step_calls (resp : StockCall → ApiResult) (F : List (String × FeedRecord))
    (acc : ScenarioAcc) (e : String × CatalogRecord) :
    (scenario1Step resp F acc e).calls = acc.calls ++ callsForReset F e := by
  unfold scenario1Step callsForReset
  cases hl : lookupSku e.1 F with
  | none => simp [scenario1Body_calls]
  | some v => simp

theorem scenario1Step_resetCls (resp : StockCall → ApiResult) (F : List (String × FeedRecord))
    (acc : ScenarioAcc) (e : String × CatalogRecord) :
    (scenario1Step resp F acc e).resetCls =
      acc.resetCls ++ (if (lookupSku e.1 F).isNone then [e.1] else []) := by
  unfold scenario1Step
  cases hl : lookupSku e.1 F with
  | none => simp [scenario1Body_resetCls]
  | some v => simp

theorem scenario1Step_updateCls (resp : StockCall → ApiResult) (F : List (String × FeedRecord))
    (acc : ScenarioAcc) (e : String × CatalogRecord) :
    (scenario1Step resp F acc e).updateCls = acc.updateCls := by
  unfold scenario1Step
  cases hl : lookupSku e.1 F with
  | none => simp [scenario1Body_updateCls]
  | some v => simp

theorem scenario1Step_newCls (resp : StockCall → ApiResult) (F : List (String × FeedRecord))
    (acc : ScenarioAcc) (e : String × CatalogRecord) :
    (scenario1Step resp F acc e).newCls = acc.newCls := by
  unfold scenario1Step
  cases hl : lookupSku e.1 F with
  | none => simp [scenario1Body_newCls]
  | some v => simp

theorem scenario1Step_newProducts (resp : StockCall → ApiResult) (F : List (String × FeedRecord))
    (acc : ScenarioAcc) (e : String × CatalogRecord) :
    (scenario1Step resp F acc e).newProductsForCreation = acc.newProductsForCreation := by
  unfold scenario1Step
  cases hl : lookupSku e.1 F with
  | none => simp [scenario1Body_newProducts]
  | some v => simp

theorem scenario2Step_calls (resp : StockCall → ApiResult) (C : List (String × CatalogRecord))
    (acc : ScenarioAcc) (e : String × FeedRecord) :
    (scenario2Step resp C acc e).calls = acc.calls ++ callsForUpdate C e := by
  unfold scenario2Step callsForUpdate
  cases hl : lookupSku e.1 C with
  | none => simp
  | some rec => simp [scenario2Body_calls]

theorem scenario2Step_resetCls (resp : StockCall → ApiResult) (C : List (String × CatalogRecord))
    (acc : ScenarioAcc) (e : String × FeedRecord) :
    (scenario2Step resp C acc e).resetCls = acc.resetCls := by
  unfold scenario2Step
  cases hl : lookupSku e.1 C with
  | none => simp
  | some rec => simp [scenario2Body_resetCls]

theorem scenario2Step_updateCls (resp : StockCall → ApiResult) (C : List (String × CatalogRecord))
    (acc : ScenarioAcc) (e : String × FeedRecord) :
    (scenario2Step resp C acc e).updateCls =
      acc.updateCls ++ (if (lookupSku e.1 C).isSome then [e.1] else []) := by
  unfold scenario2Step
  cases hl : lookupSku e.1 C with
  | none => simp
  | some rec => simp [scenario2Body_updateCls]

theorem scenario2Step_newCls (resp : StockCall → ApiResult) (C : List (String × CatalogRecord))
    (acc : ScenarioAcc) (e : String × FeedRecord) :
    (scenario2Step resp C acc e).newCls = acc.newCls := by
  unfold scenario2Step
  cases hl : lookupSku e.1 C with
  | none => simp
  | some rec => simp [scenario2Body_newCls]

theorem scenario2Step_newProducts (resp : StockCall → ApiResult) (C : List (String × CatalogRecord))
    (acc : ScenarioAcc) (e : String × FeedRecord) :
    (scenario2Step resp C acc e).newProductsForCreation = acc.newProductsForCreation := by
  unfold scenario2Step
  cases hl : lookupSku e.1 C with
  | none => simp
  | some rec => simp [scenario2Body_newProducts]

theorem scenario3Step_calls (C : List (String × CatalogRecord))
    (acc : ScenarioAcc) (e : String × FeedRecord) :
    (scenario3Step C acc e).calls = acc.calls := by
  unfold scenario3Step
  split <;> rfl

theorem scenario3Step_resetCls (C : List (String × CatalogRecord))
    (acc : ScenarioAcc) (e : String × FeedRecord) :
    (scenario3Step C acc e).resetCls = acc.resetCls := by
  unfold scenario3Step
  split <;> rfl

theorem scenario3Step_updateCls (C : List (String × CatalogRecord))
    (acc : ScenarioAcc) (e : String × FeedRecord) :
    (scenario3Step C acc e).updateCls = acc.updateCls := by
  unfold scenario3Step
  split <;> rfl

theorem scenario3Step_newCls (C : List (String × CatalogRecord))
    (acc : ScenarioAcc) (e : String × FeedRecord) :
    (scenario3Step C acc e).newCls =
      acc.newCls ++ (if (lookupSku e.1 C).isNone then [e.1] else []) := by
  unfold scenario3Step
  cases hl : lookupSku e.1 C with
  | none => simp
  | some rec => simp

theorem scenario3Step_newProducts (C : List (String × CatalogRecord))
    (acc : ScenarioAcc) (e : String × FeedRecord) :
    (scenario3Step C acc e).newProductsForCreation =
      acc.newProductsForCreation ++
        (if (lookupSku e.1 C).isNone then [mkNewProductInfo e.1 e.2] else []) := by
  unfold scenario3Step
  cases hl : lookupSku e.1 C with
  | none => simp
  | some rec => simp

/-! ### Whole-run characterizations -/

theorem afs_calls (resp : StockCall → ApiResult) (C : List (String × CatalogRecord))
    (F : List (String × FeedRecord)) :
    (applyFilteringScenarios resp C F).calls =
      (C.map (callsForReset F)).flatten ++ (F.map (callsForUpdate C)).flatten := by
  unfold applyFilteringScenarios
  dsimp only
  rw [foldl_proj_const (scenario3Step C) ScenarioAcc.calls (scenario3Step_calls C),
      foldl_proj (scenario2Step resp C) ScenarioAcc.calls (callsForUpdate C)
        (scenario2Step_calls resp C),
      foldl_proj (scenario1Step resp F) ScenarioAcc.calls (callsForReset F)
        (scenario1Step_calls resp F)]
  simp [emptyScenarioAcc]

theorem afs_resetCls (resp : StockCall → ApiResult) (C : List (String × CatalogRecord))
    (F : List (String × FeedRecord)) :
    (applyFilteringScenarios resp C F).resetCls =
      (C.map Prod.fst).filter (fun s => (lookupSku s F).isNone) := by
  unfold applyFilteringScenarios
  dsimp only
  rw [foldl_proj_const (scenario3Step C) ScenarioAcc.resetCls (scenario3Step_resetCls C),
      foldl_proj_const (scenario2Step resp C) ScenarioAcc.resetCls (scenario2Step_resetCls resp C),
      foldl_proj (scenario1Step resp F) ScenarioAcc.resetCls
        (fun e => if (lookupSku e.1 F).isNone then [e.1] else [])
        (scenario1Step_resetCls resp F)]
  rw [join_map_guard (fun e => (lookupSku e.1 F).isNone) Prod.fst C,
      filter_fst_comm (fun s => (lookupSku s F).isNone) C]
  simp [emptyScenarioAcc]

theorem afs_updateCls (resp : StockCall → ApiResult) (C : List (String × CatalogRecord))
    (F : List (String × FeedRecord)) :
    (applyFilteringScenarios resp C F).updateCls =
      (F.map Prod.fst).filter (fun s => (lookupSku s C).isSome) := by
  unfold applyFilteringScenarios
  dsimp only
  rw [foldl_proj_const (scenario3Step C) ScenarioAcc.updateCls (scenario3Step_updateCls C),
      foldl_proj (scenario2Step resp C) ScenarioAcc.updateCls
        (fun e => if (lookupSku e.1 C).isSome then [e.1] else [])
        (scenario2Step_updateCls resp C),
      foldl_proj_const (scenario1Step resp F) ScenarioAcc.updateCls
        (scenario1Step_updateCls resp F)]
  rw [join_map_guard (fun e => (lookupSku e.1 C).isSome) Prod.fst F,
      filter_fst_comm (fun s => (lookupSku s C).isSome) F]
  simp [emptyScenarioAcc]

theorem afs_newCls (resp : StockCall → ApiResult) (C : List (String × CatalogRecord))
    (F : List (String × FeedRecord)) :
    (applyFilteringScenarios resp C F).newCls =
      (F.map Prod.fst).filter (fun s => (lookupSku s C).isNone) := by
  unfold applyFilteringScenarios
  dsimp only
  rw [foldl_proj (scenario3Step C) ScenarioAcc.newCls
        (fun e => if (lookupSku e.1 C).isNone then [e.1] else [])
        (scenario3Step_newCls C),
      foldl_proj_const (scenario2Step resp C) ScenarioAcc.newCls (scenario2Step_newCls resp C),
      foldl_proj_const (scenario1Step resp F) ScenarioAcc.newCls (scenario1Step_newCls resp F)]
  rw [join_map_guard (fun e => (lookupSku e.1 C).isNone) Prod.fst F,
      filter_fst_comm (fun s => (lookupSku s C).isNone) F]
  simp [emptyScenarioAcc]

theorem afs_newProducts (resp : StockCall → ApiResult) (C : List (String × CatalogRecord))
    (F : List (String × FeedRecord)) :
    (applyFilteringScenarios resp C F).newProductsForCreation =
      (F.filter (fun e => (lookupSku e.1 C).isNone)).map (fun e => mkNewProductInfo e.1 e.2) := by
  unfold applyFilteringScenarios
  dsimp only
  rw [foldl_proj (scenario3Step C) ScenarioAcc.newProductsForCreation
        (fun e => if (lookupSku e.1 C).isNone then [mkNewProductInfo e.1 e.2] else [])
        (scenario3Step_newProducts C),
      foldl_proj_const (scenario2Step resp C) ScenarioAcc.newProductsForCreation
        (scenario2Step_newProducts resp C),
      foldl_proj_const (scenario1Step resp F) ScenarioAcc.newProductsForCreation
        (scenario1Step_newProducts resp F)]
  rw [join_map_guard (fun e => (lookupSku e.1 C).isNone) (fun e => mkNewProductInfo e.1 e.2) F]
  simp [emptyScenarioAcc]

/-! ### Further helper lemmas -/

theorem lookupSku_isNone_iff {β : Type} (s : String) (l : List (String × β)) :
    (lookupSku s l).isNone = true ↔ s ∉ l.map Prod.fst := by
  rw [Option.isNone_iff_eq_none, lookupSku_eq_none_iff]

theorem count_filter_nodup (q : String → Bool) (l : List String) (h : l.Nodup) (a : String) :
    (l.filter q).count a = if a ∈ l ∧ q a = true then 1 else 0 := by
  by_cases hm : a ∈ l ∧ q a = true
  · rw [if_pos hm]
    exact List.count_eq_one_of_mem (h.filter q) (List.mem_filter.2 ⟨hm.1, hm.2⟩)
  · rw [if_neg hm]
    rw [List.count_eq_zero]
    intro hmem
    exact hm ⟨(List.mem_filter.1 hmem).1, (List.mem_filter.1 hmem).2⟩

theorem foldl_inv {σ α : Type} (f : σ → α → σ) (P : σ → Prop)
    (h : ∀ acc e, P acc → P (f acc e)) :
    ∀ (l : List α) (acc : σ), P acc → P (List.foldl f acc l) := by
  intro l
  induction l with
  | nil => intro acc hp; exact hp
  | cons e t ih => intro acc hp; exact ih _ (h acc e hp)

theorem flatten_nil_of_all {α β : Type} (f : β → List α) (l : List β)
    (h : ∀ e ∈ l, f e = []) : (l.map f).flatten = [] := by
  induction l with
  | nil => rfl
  | cons e t ih =>
    simp only [List.map_cons, List.flatten_cons, h e (List.mem_cons_self e t)]
    exact ih (fun x hx => h x (List.mem_cons_of_mem _ hx))

theorem insertVariant_isVariant (p : RawProduct) (acc : List (String × CatalogRecord))
    (v : RawVariant) (h : ∀ e ∈ acc, e.2.isVariant = true) :
    ∀ e ∈ insertVariant p acc v, e.2.isVariant = true := by
  unfold insertVariant
  cases resolveVariantSku v with
  | none => exact h
  | some sku =>
    intro e he
    rcases mem_dictInsert sku (mkCatalogRecord p v) acc e he with he' | he'
    · rw [he']
      rfl
    · exact h e he'

theorem getConwayVariantSkus_isVariant (ps : List RawProduct) :
    ∀ e ∈ getConwayVariantSkus ps, e.2.isVariant = true := by
  unfold getConwayVariantSkus
  refine foldl_inv _
    (fun (acc : List (String × CatalogRecord)) => ∀ e ∈ acc, e.2.isVariant = true)
    ?_ ps [] (by simp)
  intro acc p hacc
  exact foldl_inv _
    (fun (acc : List (String × CatalogRecord)) => ∀ e ∈ acc, e.2.isVariant = true)
    (fun a v ha => insertVariant_isVariant p a v ha) p.variants acc hacc

theorem validatePrice_sku (p : FeedRecord) : (validatePrice p).sku = p.sku := by
  unfold validatePrice
  cases p.price with
  | none => rfl
  | some pr => by_cases hneg : pr < 0 <;> simp [hneg]

theorem validateStock_sku (p : FeedRecord) : (validateStock p).sku = p.sku := by
  unfold validateStock
  cases p.stock with
  | none => rfl
  | some st => by_cases hneg : st < 0 <;> simp [hneg]

theorem validateOne_some (p q : FeedRecord) (h : validateOne p = some q) :
    q.sku ≠ "" ∧ (q.price.isSome = true ∨ q.stock.isSome = true) := by
  unfold validateOne at h
  by_cases hs : p.sku = ""
  · rw [if_pos hs] at h
    exact absurd h (by simp)
  · rw [if_neg hs] at h
    dsimp only at h
    by_cases hc :
        ((validateStock (validatePrice p)).price.isSome
          || (validateStock (validatePrice p)).stock.isSome) = true
    · rw [if_pos hc] at h
      obtain rfl := Option.some.inj h
      refine ⟨?_, ?_⟩
      · rw [validateStock_sku, validatePrice_sku]
        exact hs
      · simpa using hc
    · rw [if_neg hc] at h
      exact absurd h (by simp)

theorem deletionStep_successful_failed (resp : String → ApiResult) (dr : DeletionResults)
    (e : DeletionItem) :
    (deletionStep resp dr e).successful + (deletionStep resp dr e).failed =
      dr.successful + dr.failed + 1 := by
  unfold deletionStep
  split <;> simp <;> omega

theorem deletionStep_details (resp : String → ApiResult) (dr : DeletionResults)
    (e : DeletionItem) :
    (deletionStep resp dr e).details.length = dr.details.length + 1 := by
  unfold deletionStep
  split <;> simp

theorem deletionStep_errors (resp : String → ApiResult) (dr : DeletionResults)
    (e : DeletionItem) :
    (deletionStep resp dr e).errors.length + dr.failed =
      dr.errors.length + (deletionStep resp dr e).failed := by
  unfold deletionStep
  split
  · simp
  · simp
    omega

theorem deletions_fold_counts (resp : String → ApiResult) :
    ∀ (l : List DeletionItem) (dr : DeletionResults),
      (l.foldl (deletionStep resp) dr).successful + (l.foldl (deletionStep resp) dr).failed =
          dr.successful + dr.failed + l.length ∧
      (l.foldl (deletionStep resp) dr).details.length = dr.details.length + l.length ∧
      (l.foldl (deletionStep resp) dr).errors.length + dr.failed =
          dr.errors.length + (l.foldl (deletionStep resp) dr).failed := by
  intro l
  induction l with
  | nil => intro dr; simp
  | cons e t ih =>
    intro dr
    rw [List.foldl_cons]
    have h1 := deletionStep_successful_failed resp dr e
    have h2 := deletionStep_details resp dr e
    have h3 := deletionStep_errors resp dr e
    rcases ih (deletionStep resp dr e) with ⟨i1, i2, i3⟩
    refine ⟨?_, ?_, ?_⟩
    · simp only [List.length_cons]
      omega
    · simp only [List.length_cons]
      omega
    · omega

/-! ### Claim theorems -/

/-- C1: for any catalog index C and feed F (with the unique keys of
Python dictionaries), every SKU occurring in C or in F is classified by
the reconciliation run in exactly one of the Reset, Update and
New-candidate scenarios — its classifications across the three scenarios
total exactly one. -/
theorem claim_C1 (resp : StockCall → ApiResult) (C : List (String × CatalogRecord))
    (F : List (String × FeedRecord)) (hC : (C.map Prod.fst).Nodup)
    (hF : (F.map Prod.fst).Nodup) (sku : String)
    (hmem : sku ∈ C.map Prod.fst ∨ sku ∈ F.map Prod.fst) :
    (applyFilteringScenarios resp C F).resetCls.count sku +
      (applyFilteringScenarios resp C F).updateCls.count sku +
      (applyFilteringScenarios resp C F).newCls.count sku = 1 := by
  rw [afs_resetCls, afs_updateCls, afs_newCls,
      count_filter_nodup _ _ hC, count_filter_nodup _ _ hF, count_filter_nodup _ _ hF]
  by_cases hc : sku ∈ C.map Prod.fst <;> by_cases hf : sku ∈ F.map Prod.fst
  · simp [hc, hf, lookupSku_isNone_iff, lookupSku_isSome_iff, lookupSku_eq_none_iff]
  · simp [hc, hf, lookupSku_isNone_iff, lookupSku_isSome_iff, lookupSku_eq_none_iff]
  · simp [hc, hf, lookupSku_isNone_iff, lookupSku_isSome_iff, lookupSku_eq_none_iff]
  · rcases hmem with h | h
    · exact absurd h hc
    · exact absurd h hf

/-- Witness for C1 at a concrete index and feed. -/
theorem claim_C1_witness :
    (applyFilteringScenarios respOk [("A", recA)] [("C", fpNewC)]).resetCls.count "A" +
      (applyFilteringScenarios respOk [("A", recA)] [("C", fpNewC)]).updateCls.count "A" +
      (applyFilteringScenarios respOk [("A", recA)] [("C", fpNewC)]).newCls.count "A" = 1 :=
  claim_C1 respOk [("A", recA)] [("C", fpNewC)] (by decide) (by decide) "A" (by decide)

/-- C2 counterexample: on a catalog index with one variant of stock 5
and an empty feed, the reconciliation function itself issues a mutation
call to the catalog service, so it is not free of catalog-service
calls. -/
theorem claim_C2_counterexample :
    (applyFilteringScenarios respOk [("A", recA)] []).calls ≠ [] := by decide

/-- C2 amended: the engine does issue catalog-service mutation calls
interleaved with classification, but its scenario decisions — the
classified SKU lists, the tracked new-product candidates and the set of
submitted mutations — are a pure function of the catalog index and feed,
identical under any two response oracles. -/
theorem claim_C2 (resp resp' : StockCall → ApiResult) (C : List (String × CatalogRecord))
    (F : List (String × FeedRecord)) :
    (applyFilteringScenarios resp C F).resetCls = (applyFilteringScenarios resp' C F).resetCls ∧
    (applyFilteringScenarios resp C F).updateCls =
      (applyFilteringScenarios resp' C F).updateCls ∧
    (applyFilteringScenarios resp C F).newCls = (applyFilteringScenarios resp' C F).newCls ∧
    (applyFilteringScenarios resp C F).newProductsForCreation =
      (applyFilteringScenarios resp' C F).newProductsForCreation ∧
    (applyFilteringScenarios resp C F).calls = (applyFilteringScenarios resp' C F).calls := by
  refine ⟨?_, ?_, ?_, ?_, ?_⟩
  · rw [afs_resetCls, afs_resetCls]
  · rw [afs_updateCls, afs_updateCls]
  · rw [afs_newCls, afs_newCls]
  · rw [afs_newProducts, afs_newProducts]
  · rw [afs_calls, afs_calls]

/-- C3 counterexample: a feed record for catalog SKU `A` with no stock
field does enter Update consideration — the run computes and applies a
stock mutation (delta `0 - 5 = -5`) for that SKU. -/
theorem claim_C3_counterexample :
    (applyFilteringScenarios respOk [("A", recA)] [("A", fpNoStock)]).calls =
        [⟨"P1", "V1", -5⟩] ∧
      (applyFilteringScenarios respOk [("A", recA)] [("A", fpNoStock)]).stockUpdates = 1 := by
  decide

/-- C3 amended: a feed record with no stock field is treated as target
stock 0 by the Update scenario (`int(file_product.get('stock', 0))`):
whenever the record's current stock is non-zero, a mutation with delta
`-current` is computed and submitted for that SKU. -/
theorem claim_C3 (resp : StockCall → ApiResult) (sku : String) (rec : CatalogRecord)
    (fp : FeedRecord) (cur : Int) (m v : String) (hstock : fp.stock = none)
    (hcur : getCurrentStock rec = some cur) (hne : cur ≠ 0) (hvar : rec.isVariant = true)
    (hm : rec.mainProductId = some m) (hm' : m ≠ "") (hvi : rec.variantId = some v)
    (hv' : v ≠ "") :
    (applyFilteringScenarios resp [(sku, rec)] [(sku, fp)]).calls = [⟨m, v, -cur⟩] := by
  rw [afs_calls]
  have h1 : callsForReset [(sku, fp)] (sku, rec) = [] := by
    unfold callsForReset
    simp [lookupSku]
  have h2 : callsForUpdate [(sku, rec)] (sku, fp) = [⟨m, v, -cur⟩] := by
    unfold callsForUpdate
    simp [lookupSku, hcur, hstock, hne, guardedCalls, hvar, hm, hvi, hm', hv', stockCalls,
      zero_sub, neg_eq_zero]
  simp [h1, h2]

/-- Witness for the amended C3 at a concrete record. -/
theorem claim_C3_witness :
    (applyFilteringScenarios respOk [("A", recA)] [("A", fpNoStock)]).calls =
      [⟨"P1", "V1", -5⟩] :=
  claim_C3 respOk "A" recA fpNoStock 5 "P1" "V1" rfl rfl (by decide) rfl rfl (by decide) rfl
    (by decide)

/-- C4: the stock mutation is delta-based — the submitted value is
exactly `b - a`; a zero delta issues no call and reports success; and
applying any submitted delta to a catalog holding `a` yields exactly
`b`. -/
theorem claim_C4 (resp : StockCall → ApiResult) (pid : String) (vid : Option String)
    (a b : Int) :
    (b - a = 0 → updateProductStock resp pid b a vid = (true, [])) ∧
    (b - a ≠ 0 → (updateProductStock resp pid b a vid).2 = [⟨pid, vid.getD pid, b - a⟩]) ∧
    (∀ c ∈ (updateProductStock resp pid b a vid).2, c.delta = b - a ∧ a + c.delta = b) := by
  refine ⟨?_, ?_, ?_⟩
  · intro h
    unfold updateProductStock
    simp [h]
  · intro h
    unfold updateProductStock
    dsimp only
    rw [if_neg h]
    cases hr : resp ⟨pid, vid.getD pid, b - a⟩ <;> simp
  · intro c hc
    unfold updateProductStock at hc
    dsimp only at hc
    by_cases h : b - a = 0
    · rw [if_pos h] at hc
      simp at hc
    · rw [if_neg h] at hc
      cases hr : resp ⟨pid, vid.getD pid, b - a⟩ <;> rw [hr] at hc <;> simp at hc <;> subst hc
      all_goals refine ⟨rfl, ?_⟩
      all_goals show a + (b - a) = b
      all_goals omega

/-- Witness for C4: delta 3 is submitted for 2 → 5, and 4 → 4 issues no
call and succeeds. -/
theorem claim_C4_witness :
    (updateProductStock respOk "p" 5 2 (some "v")).2 = [⟨"p", (some "v").getD "p", 5 - 2⟩] ∧
    updateProductStock respOk "p" 4 4 (some "v") = (true, []) :=
  ⟨(claim_C4 respOk "p" (some "v") 2 5).2.1 (by decide),
   (claim_C4 respOk "p" (some "v") 4 4).1 (by decide)⟩

/-- C5: the catalog index built by `get_conway_variant_skus` only ever
contains records marked as variants, and the mutation executor refuses a
non-variant record non-fatally — it returns failure and issues no
call. -/
theorem claim_C5 :
    (∀ (ps : List RawProduct) (sku : String) (rec : CatalogRecord),
        lookupSku sku (getConwayVariantSkus ps) = some rec → rec.isVariant = true) ∧
    (∀ (resp : StockCall → ApiResult) (rec : CatalogRecord) (n c : Int),
        rec.isVariant = false → updateProductStockGuarded resp rec n c = (false, [])) := by
  constructor
  · intro ps sku rec hl
    exact getConwayVariantSkus_isVariant ps (sku, rec) (lookupSku_mem sku _ rec hl)
  · intro resp rec n c h
    unfold updateProductStockGuarded
    simp [h]

/-- Witness for C5 at a concrete catalog product and a concrete
main-product record. -/
theorem claim_C5_witness :
    (mkCatalogRecord rawP1 rawV1).isVariant = true ∧
    updateProductStockGuarded respOk recMain 5 3 = (false, []) :=
  ⟨claim_C5.1 [rawP1] "V1" (mkCatalogRecord rawP1 rawV1) (by decide),
   claim_C5.2 respOk recMain 5 3 (by decide)⟩

/-- C6: for a catalog SKU absent from the feed whose record resolves a
current stock, the run submits a mutation to target 0 (delta `-current`)
iff the current stock is strictly positive; at stock ≤ 0 no mutation
call is issued. -/
theorem claim_C6 (resp : StockCall → ApiResult) (F : List (String × FeedRecord))
    (sku : String) (rec : CatalogRecord) (cur : Int) (m v : String)
    (habs : lookupSku sku F = none) (hcur : getCurrentStock rec = some cur)
    (hvar : rec.isVariant = true) (hm : rec.mainProductId = some m) (hm' : m ≠ "")
    (hvi : rec.variantId = some v) (hv' : v ≠ "") :
    (applyFilteringScenarios resp [(sku, rec)] F).calls =
      if 0 < cur then [⟨m, v, -cur⟩] else [] := by
  rw [afs_calls]
  have hupd : ∀ e ∈ F, callsForUpdate [(sku, rec)] e = [] := by
    intro e he
    have hne : sku ≠ e.1 := by
      intro h
      refine (lookupSku_eq_none_iff sku F).1 habs ?_
      rw [h]
      exact List.mem_map_of_mem Prod.fst he
    unfold callsForUpdate
    simp [lookupSku, hne]
  rw [flatten_nil_of_all _ F hupd]
  have hres : callsForReset F (sku, rec) = if 0 < cur then [⟨m, v, -cur⟩] else [] := by
    unfold callsForReset
    by_cases hc : 0 < cur
    · have hne0 : cur ≠ 0 := by omega
      simp [habs, hcur, hc, guardedCalls, hvar, hm, hvi, hm', hv', stockCalls, zero_sub,
        neg_eq_zero, hne0]
    · simp [habs, hcur, hc]
  simp [hres]

/-- Witness for C6 at a concrete variant record of stock 5 and the empty
feed. -/
theorem claim_C6_witness :
    (applyFilteringScenarios respFail [("A", recA)] []).calls =
      if 0 < (5 : Int) then [⟨"P1", "V1", -5⟩] else [] :=
  claim_C6 respFail [] "A" recA 5 "P1" "V1" rfl rfl rfl rfl (by decide) rfl (by decide)

/-- C7 (evaluated at the failing input): with M = 1 existing catalog
variant named `X` and N = 2 new candidates named `X`, the consolidator
schedules exactly one deletion for parent `P1` (as claimed) but builds a
combined list of 4 entries, not N + M = 3 — the second candidate is
appended twice (once by the all-candidates-of-this-name pass, once by
the already-processed branch). -/
theorem claim_C7 :
    (consolidateVariantsWithExisting consIdx consNew).deletions = ["P1"] ∧
    (consolidateVariantsWithExisting consIdx consNew).consolidated.length = 4 := by
  decide

/-- C8 counterexample: deleting an absent product (404 response) is
reported as failure, not success. -/
theorem claim_C8_counterexample :
    deleteProductWithVariants respDel404 "p1" = false := by decide

/-- C8 amended: `delete_product_with_variants` reports success exactly
for a 200 or 204 response; a 404-style not-found response is reported as
failure like any other non-success status, and transport errors also
report failure (non-fatally, as a boolean). -/
theorem claim_C8 (resp : String → ApiResult) (pid : String) :
    deleteProductWithVariants resp pid = true ↔
      resp pid = ApiResult.status 200 ∨ resp pid = ApiResult.status 204 := by
  unfold deleteProductWithVariants
  cases h : resp pid with
  | status c => simp
  | netError => simp

/-- Witness for the amended C8: a 200 response reports success. -/
theorem claim_C8_witness : deleteProductWithVariants respDelOk "p1" = true :=
  (claim_C8 respDelOk "p1").2 (Or.inl rfl)

/-- C9: mutation application always yields a boolean per item and
failures never abort the batch — (1) the classified SKU sets are
identical under any two response oracles, so every SKU is processed
whatever the failures; (2) a failed Reset mutation appends an error
naming the SKU; (3) a failed Update mutation appends an error naming the
SKU; (4) the deletion executor processes every scheduled item, with
successes and failures partitioning the batch and one error recorded per
failure. -/
theorem claim_C9 :
    (∀ (resp resp' : StockCall → ApiResult) (C : List (String × CatalogRecord))
        (F : List (String × FeedRecord)),
        (applyFilteringScenarios resp C F).resetCls =
            (applyFilteringScenarios resp' C F).resetCls ∧
          (applyFilteringScenarios resp C F).updateCls =
            (applyFilteringScenarios resp' C F).updateCls ∧
          (applyFilteringScenarios resp C F).newCls =
            (applyFilteringScenarios resp' C F).newCls) ∧
    (∀ (resp : StockCall → ApiResult) (F : List (String × FeedRecord)) (acc : ScenarioAcc)
        (sku : String) (rec : CatalogRecord) (cur : Int),
        lookupSku sku F = none → getCurrentStock rec = some cur → 0 < cur →
        (updateProductStockGuarded resp rec 0 cur).1 = false →
        (scenario1Step resp F acc (sku, rec)).errors =
          acc.errors ++ ["Failed to reset stock for SKU: " ++ sku]) ∧
    (∀ (resp : StockCall → ApiResult) (C : List (String × CatalogRecord)) (acc : ScenarioAcc)
        (sku : String) (fp : FeedRecord) (rec : CatalogRecord) (cur : Int),
        lookupSku sku C = some rec → getCurrentStock rec = some cur →
        cur ≠ fp.stock.getD 0 →
        (updateProductStockGuarded resp rec (fp.stock.getD 0) cur).1 = false →
        (scenario2Step resp C acc (sku, fp)).errors =
          acc.errors ++ ["Failed to update stock for SKU: " ++ sku]) ∧
    (∀ (resp : String → ApiResult) (items : List DeletionItem),
        (executeAutomaticProductDeletions resp items).successful +
            (executeAutomaticProductDeletions resp items).failed = items.length ∧
          (executeAutomaticProductDeletions resp items).details.length = items.length ∧
          (executeAutomaticProductDeletions resp items).errors.length =
            (executeAutomaticProductDeletions resp items).failed) := by
  refine ⟨?_, ?_, ?_, ?_⟩
  · intro resp resp' C F
    exact ⟨by rw [afs_resetCls, afs_resetCls], by rw [afs_updateCls, afs_updateCls],
      by rw [afs_newCls, afs_newCls]⟩
  · intro resp F acc sku rec cur habs hcur hpos hfail
    unfold scenario1Step
    dsimp only
    rw [habs]
    simp only [Option.isSome_none, Bool.false_eq_true, if_false]
    unfold scenario1Body
    rw [hcur]
    dsimp only
    rw [if_pos hpos]
    simp [hfail]
  · intro resp C acc sku fp rec cur hlook hcur hne hfail
    unfold scenario2Step
    dsimp only
    rw [hlook]
    unfold scenario2Body
    dsimp only
    rw [hcur]
    dsimp only
    rw [if_pos hne]
    simp [hfail]
  · intro resp items
    rcases deletions_fold_counts resp items ⟨items.length, 0, 0, [], []⟩ with ⟨h1, h2, h3⟩
    unfold executeAutomaticProductDeletions
    refine ⟨by simpa using h1, by simpa using h2, by simpa using h3⟩

/-- Witness for C9 at a failing oracle: the Reset failure for SKU `A`
appends its error message. -/
theorem claim_C9_witness :
    (scenario1Step respFail [] emptyScenarioAcc ("A", recA)).errors =
      emptyScenarioAcc.errors ++ ["Failed to reset stock for SKU: " ++ "A"] :=
  claim_C9.2.1 respFail [] emptyScenarioAcc "A" recA 5 rfl rfl (by decide) (by decide)

/-- C10: every record surviving feed validation has a non-empty SKU and
at least one of a price or a stock; a row carrying only a name (and no
price or stock) survives extraction but is silently dropped by
validation, so it never reaches reconciliation. -/
theorem claim_C10 :
    (∀ (ps : List FeedRecord) (q : FeedRecord), q ∈ validateProducts ps →
        q.sku ≠ "" ∧ (q.price.isSome = true ∨ q.stock.isSome = true)) ∧
    (∀ p : FeedRecord, p.name.isSome = true → p.price = none → p.stock = none →
        extractKeeps p = true ∧ validateOne p = none) := by
  constructor
  · intro ps q hq
    rcases List.mem_filterMap.1 hq with ⟨p, _, hv⟩
    exact validateOne_some p q hv
  · intro p hn hp hstk
    constructor
    · simp [extractKeeps, hp, hstk, hn]
    · unfold validateOne
      have h1 : validatePrice p = p := by
        unfold validatePrice
        rw [hp]
      have h2 : validateStock p = p := by
        unfold validateStock
        rw [hstk]
      rw [h1, h2]
      split
      · rfl
      · simp [hp, hstk]

/-- Witness for C10: a price-and-stock-free, name-only record is kept by
extraction and dropped by validation; a record with stock passes with a
non-empty SKU and a stock value. -/
theorem claim_C10_witness :
    (fpNewC.sku ≠ "" ∧ (fpNewC.price.isSome = true ∨ fpNewC.stock.isSome = true)) ∧
    (extractKeeps fpNameOnly = true ∧ validateOne fpNameOnly = none) :=
  ⟨claim_C10.1 [fpNewC] fpNewC (by decide), claim_C10.2 fpNameOnly rfl rfl rfl⟩
